import Mathlib

/-!
Shallow embedding of the BLOCK-DARK dashboard (src/app.py) and verification
of its natural-language specification.

Modelling conventions:
 * A transaction record mirrors the fields of the upstream JSON that the code
   reads: hash, time (Unix seconds, an integer), result (signed integer),
   fee (optional, since get_additional_stats guards with a membership test),
   and the list of outputs (each with an optional address and a value).
 * Timestamps are modelled as integers (Unix seconds). pd.to_datetime with
   unit set to seconds and pd.Timestamp arithmetic are order-isomorphic to
   integer arithmetic on seconds; 24 hours is 86400 seconds.
 * get_wallet_overview calls pd.Timestamp.now() internally; the ambient
   clock value that this call returns is made explicit as the parameter
   `now` of the embedded function, so that claims about clock dependence
   can be stated.
 * Python raises ValueError from min()/max() on an empty sequence and
   ZeroDivisionError from the division by len(...) when the record list is
   empty; both failures happen exactly when the record list is empty and
   are modelled as the single error value AggError.emptyDataset, the name
   the specification gives to this failure.
 * Python floating point division in get_additional_stats is modelled with
   rational numbers: the claims under audit are about which sums and which
   denominators enter the quotients, not about rounding.
-/

deriving instance DecidableEq for Except

namespace BlockDark

/-- One output entry of a transaction record: optional address and value. -/
structure TxOut where
  addr : Option String
  value : Int
deriving DecidableEq, Repr

/-- One transaction record as read by the code from the upstream JSON. -/
structure Tx where
  hash : String
  time : Int
  result : Int
  fee : Option Int
  out : List TxOut
deriving DecidableEq, Repr

/-- Wallet snapshot: final_balance plus the ordered record list (the txs key). -/
structure Snapshot where
  final_balance : Int
  txs : List Tx
deriving DecidableEq, Repr

/-- The overview dictionary returned by get_wallet_overview. -/
structure Overview where
  balance : Int
  total_received : Int
  total_sent : Int
  first_transaction : Int
  last_transaction : Int
  last_24h_received : Int
  last_24h_sent : Int
deriving DecidableEq, Repr

/-- The stats dictionary returned by get_additional_stats. -/
structure Stats where
  avg_fee : ℚ
  avg_sent : ℚ
  avg_received : ℚ
deriving DecidableEq, Repr

/-- Failure of an aggregate over an empty record list (Python: ValueError
from min and max, ZeroDivisionError from the division by len). -/
inductive AggError where
  | emptyDataset
deriving DecidableEq, Repr

/-- Python min over a nonempty sequence, as a fold; the empty branch is
unreachable behind the emptyDataset guard. -/
def listMin : List Int → Int
  | [] => 0
  | x :: xs => xs.foldl min x

/-- Python max over a nonempty sequence, as a fold; the empty branch is
unreachable behind the emptyDataset guard. -/
def listMax : List Int → Int
  | [] => 0
  | x :: xs => xs.foldl max x

/-- get_wallet_overview (src/app.py lines 124-143).  `now` is the value of
the internal pd.Timestamp.now() call, made explicit.  min and max over the
record times raise on an empty list, so the empty list is the error case. -/
def get_wallet_overview (transactions : Snapshot) (now : Int) : Except AggError Overview :=
  if transactions.txs = [] then .error .emptyDataset
  else
    let last_24h_time := now - 86400
    .ok
      { balance := transactions.final_balance
      , total_received := ((transactions.txs.filter (fun tx => tx.result > 0)).map (·.result)).sum
      , total_sent := ((transactions.txs.filter (fun tx => tx.result < 0)).map (fun tx => -tx.result)).sum
      , first_transaction := listMin (transactions.txs.map (·.time))
      , last_transaction := listMax (transactions.txs.map (·.time))
      , last_24h_received :=
          ((transactions.txs.filter (fun tx => tx.result > 0 ∧ tx.time ≥ last_24h_time)).map (·.result)).sum
      , last_24h_sent :=
          ((transactions.txs.filter (fun tx => tx.result < 0 ∧ tx.time ≥ last_24h_time)).map (fun tx => -tx.result)).sum
      }

/-- get_additional_stats (src/app.py lines 176-186).  The fee sum ranges over
records that have a fee; every denominator is len of the whole record list,
so the empty list is the ZeroDivisionError case. -/
def get_additional_stats (transactions : Snapshot) : Except AggError Stats :=
  if transactions.txs = [] then .error .emptyDataset
  else
    let total_fees : Int := (transactions.txs.filterMap (·.fee)).sum
    let n : ℚ := (transactions.txs.length : ℚ)
    .ok
      { avg_fee := (total_fees : ℚ) / n
      , avg_sent := ((((transactions.txs.filter (fun tx => tx.result < 0)).map (fun tx => -tx.result)).sum : Int) : ℚ) / n
      , avg_received := ((((transactions.txs.filter (fun tx => tx.result > 0)).map (·.result)).sum : Int) : ℚ) / n
      }

/-- Specification-side conditional sum, written independently of the code as
a single fold: add f tx for every record satisfying p, in order. -/
def specSum (txs : List Tx) (p : Tx → Bool) (f : Tx → Int) : Int :=
  txs.foldr (fun tx acc => if p tx then f tx + acc else acc) 0

/-- The record-level filter chain of visualize_address_connections
(src/app.py lines 78-84): a record is skipped when a provided time range
excludes its timestamp, when the filter string is Sent and the result is
positive, or when the filter string is Received and the result is negative. -/
def survives (filter_type : Option String) (time_range : Option (Int × Int)) (tx : Tx) : Bool :=
  (match time_range with
   | some r => !(tx.time < r.1 || tx.time > r.2)
   | none => true)
  && !(decide (filter_type = some "Sent") && tx.result > 0)
  && !(decide (filter_type = some "Received") && tx.result < 0)

/-- The minimum-amount test of line 86: passes when min_amount is None or
the output value is at least min_amount. -/
def outPasses (min_amount : Option Int) (o : TxOut) : Bool :=
  match min_amount with
  | none => true
  | some m => decide (o.value ≥ m)

/-- The edges contributed by one record (src/app.py lines 79-87): nothing
when the record is filtered out; otherwise one pair (record hash, output
address) per output that has a known address and passes the minimum-amount
check.  Outputs without an address are dropped and raise nothing, which the
totality of this function models. -/
def txEdges (filter_type : Option String) (min_amount : Option Int)
    (time_range : Option (Int × Int)) (tx : Tx) : List (String × String) :=
  if survives filter_type time_range tx then
    tx.out.filterMap (fun o =>
      match o.addr with
      | some a => if outPasses min_amount o then some (tx.hash, a) else none
      | none => none)
  else []

/-- The edges added by the loop of visualize_address_connections
(src/app.py lines 77-87), in insertion order over all records. -/
def edgeList (transactions : Snapshot) (filter_type : Option String)
    (min_amount : Option Int) (time_range : Option (Int × Int)) : List (String × String) :=
  transactions.txs.flatMap (txEdges filter_type min_amount time_range)

/-- Specification-side time-window test, written from the specification
words: a record passes when no time range is provided, or when its
timestamp lies in the closed interval from start to end. -/
def inTimeRange (time_range : Option (Int × Int)) (tx : Tx) : Bool :=
  match time_range with
  | none => true
  | some r => decide (r.1 ≤ tx.time) && decide (tx.time ≤ r.2)

/-- Append a node if it is not present yet (networkx insertion order). -/
def insertNode (ns : List String) (n : String) : List String :=
  if n ∈ ns then ns else ns ++ [n]

/-- The node list of the DiGraph built from an edge list, in insertion
order: each edge inserts its source then its target. -/
def graphNodes (edges : List (String × String)) : List String :=
  edges.foldl (fun ns e => insertNode (insertNode ns e.1) e.2) []

/-- The distinct successors of a node in the DiGraph built from an edge
list: this is what len of the adjacency view G[node] counts. -/
def successors (edges : List (String × String)) (n : String) : List String :=
  edges.foldl (fun ss e => if e.1 = n then insertNode ss e.2 else ss) []

/-- The distinct nodes adjacent to n in either direction (sources of
in-edges and targets of out-edges).  This follows the specification words
"count of distinct adjacent nodes"; it is the comparison point for the
successor count that the code uses. -/
def adjacentNodes (edges : List (String × String)) (n : String) : List String :=
  edges.foldl (fun ss e =>
    if e.1 = n then insertNode ss e.2
    else if e.2 = n then insertNode ss e.1
    else ss) []

/-- The display attributes appended for one node in the node-trace loop
(src/app.py lines 105-112): label text, marker size, marker color. -/
structure NodeAttr where
  label : String
  size : Int
  color : Int
deriving DecidableEq, Repr

/-- Per-node display attributes, computed from the successor count d of the
node exactly as the loop body does: label "Address: ..., Transactions: d",
size 20 + d * 5, color d. -/
def nodeAttr (edges : List (String × String)) (n : String) : NodeAttr :=
  let d : Int := (successors edges n).length
  { label := "Address: " ++ n ++ ", Transactions: " ++ toString d
  , size := 20 + d * 5
  , color := d }

/-- The computational content of the figure built by
visualize_address_connections: the edge list of the DiGraph and the node
trace (one attribute record per node, in node order).  Spatial positions
come from an unseeded spring layout and are not part of this model. -/
structure TransactionGraph where
  edges : List (String × String)
  nodeTrace : List NodeAttr
deriving DecidableEq, Repr

/-- visualize_address_connections (src/app.py lines 74-122), restricted to
its computational content.  The address argument is accepted but unused in
the source body, as here. -/
def visualize_address_connections (address : String) (transactions : Snapshot)
    (filter_type : Option String) (min_amount : Option Int)
    (time_range : Option (Int × Int)) : TransactionGraph :=
  let _ := address
  let edges := edgeList transactions filter_type min_amount time_range
  { edges := edges
  , nodeTrace := (graphNodes edges).map (nodeAttr edges) }

/-- Outcome of the one HTTP read that get_transaction_history performs:
either a parsed snapshot, or the requests.RequestException text that
raise_for_status or the network read produced (network failure and
non-success HTTP status both surface through this exception type). -/
inductive FetchOutcome where
  | success (snapshot : Snapshot)
  | failure (cause : String)
deriving DecidableEq, Repr

/-- The user-visible render actions of one investigation run, in order. -/
inductive RenderStep where
  | errorMessage (msg : String)
  | walletOverview (ov : Overview)
  | statsPanel (s : Stats)
  | transactionGraph (g : TransactionGraph)
  | transactionDetails (txs : List Tx)
  | uncaughtException
deriving DecidableEq, Repr

/-- get_transaction_history (src/app.py lines 64-72) over the outcome of
its network read: on success it returns the parsed body and displays
nothing; on a RequestException it displays the error text (prefixed by the
Korean message of line 71, carrying the cause) and returns None. -/
def get_transaction_history (outcome : FetchOutcome) : Option Snapshot × List RenderStep :=
  match outcome with
  | .success s => (some s, [])
  | .failure e => (none, [.errorMessage ("데이터를 가져오는 중 오류 발생: " ++ e)])

/-- The body of the investigation branch of main (src/app.py lines 240-254):
fetch, then, only when a snapshot came back, compute and render overview,
stats, graph and details in order.  `now` is the ambient clock instant read
inside get_wallet_overview; an aggregate failure before any rendering is
modelled as uncaughtException (Python would propagate the exception and
render nothing of the run). -/
def runInvestigation (address : String) (outcome : FetchOutcome) (now : Int)
    (filter_type : Option String) (min_amount : Option Int)
    (time_range : Option (Int × Int)) : List RenderStep :=
  let fetched := get_transaction_history outcome
  match fetched.1 with
  | none => fetched.2
  | some s =>
    match get_wallet_overview s now, get_additional_stats s with
    | .ok ov, .ok st =>
      fetched.2 ++
        [ .walletOverview ov
        , .statsPanel st
        , .transactionGraph (visualize_address_connections address s filter_type min_amount time_range)
        , .transactionDetails s.txs ]
    | _, _ => fetched.2 ++ [.uncaughtException]

/-! Concrete data used by witnesses and counterexamples. -/

/-- The three-record scenario of the specification: received 500, sent 200,
neutral 0, with fees 10, 5, 0 and outputs A(500); B(150), C(50); one
addressless output of value 10. -/
def specScenario : Snapshot :=
  { final_balance := 300
  , txs :=
      [ { hash := "r1", time := 1700000000, result := 500, fee := some 10
        , out := [{ addr := some "A", value := 500 }] }
      , { hash := "r2", time := 1700003600, result := -200, fee := some 5
        , out := [{ addr := some "B", value := 150 }, { addr := some "C", value := 50 }] }
      , { hash := "r3", time := 1700007200, result := 0, fee := some 0
        , out := [{ addr := none, value := 10 }] } ] }

/-- Two received records around the 24-hour boundary for a clock reading of
1700086400: one exactly at the cut 1700000000, one one second older. -/
def boundaryScenario : Snapshot :=
  { final_balance := 0
  , txs :=
      [ { hash := "b1", time := 1700000000, result := 7, fee := none, out := [] }
      , { hash := "b2", time := 1699999999, result := 9, fee := none, out := [] } ] }

/-- One received record; used to show the overview depends on the clock. -/
def clockSnapshot : Snapshot :=
  { final_balance := 0
  , txs := [ { hash := "h", time := 1000000, result := 5, fee := none, out := [] } ] }

/-- A record that lies outside the range (0, 10); used for time filtering. -/
def lateTx : Tx :=
  { hash := "late", time := 99, result := 1, fee := none
  , out := [{ addr := some "D", value := 3 }] }

/-- One record with one addressed output; its destination node has one
adjacent node but zero successors. -/
def oneEdgeSnapshot : Snapshot :=
  { final_balance := 0
  , txs := [ { hash := "h1", time := 100, result := 5, fee := some 1
             , out := [{ addr := some "A", value := 10 }] } ] }

/-- The overview fields that do not mention the 24-hour window: balance,
total_received, total_sent, first_transaction, last_transaction. -/
def clockFreeView (ov : Overview) : Int × Int × Int × Int × Int :=
  (ov.balance, ov.total_received, ov.total_sent, ov.first_transaction, ov.last_transaction)

/-! Helper lemmas and the claims. -/

theorem specSum_eq_filter_map_sum (txs : List Tx) (p : Tx → Bool) (f : Tx → Int) :
    specSum txs p f = ((txs.filter p).map f).sum := by
  induction txs with
  | nil => rfl
  | cons tx rest ih =>
    by_cases h : p tx <;> simp [specSum, List.filter, h, List.sum_cons, ih.symm]

/-- C8: for an empty record sequence, get_wallet_overview and
get_additional_stats both fail with the EmptyDataset error (modelling the
ValueError of min and max over an empty sequence and the ZeroDivisionError
of the division by len); neither returns a value on empty input. -/
theorem c8_empty_dataset (b : Int) (now : Int) :
    get_wallet_overview { final_balance := b, txs := [] } now = .error .emptyDataset ∧
    get_additional_stats { final_balance := b, txs := [] } = .error .emptyDataset := by
  exact ⟨rfl, rfl⟩

/-- C1: for every non-empty record sequence, avg_fee is the sum of the fees
of the records that carry a fee, avg_sent the sum of minus result over the
records with negative result, and avg_received the sum of result over the
records with positive result, each divided by the count of ALL records: the
denominator is always the total record count, never the size of the
matching subset. -/
theorem c1_stats_use_total_denominator (s : Snapshot) (h : s.txs ≠ []) :
    get_additional_stats s =
      .ok { avg_fee := (((s.txs.filterMap (·.fee)).sum : Int) : ℚ) / (s.txs.length : ℚ)
          , avg_sent := ((specSum s.txs (fun tx => tx.result < 0) (fun tx => -tx.result) : Int) : ℚ) / (s.txs.length : ℚ)
          , avg_received := ((specSum s.txs (fun tx => tx.result > 0) (·.result) : Int) : ℚ) / (s.txs.length : ℚ) } := by
  simp [get_additional_stats, h, specSum_eq_filter_map_sum]

/-- Witness for C1 on the three-record scenario, where the fee subset has 3
records, the sent subset 1 and the received subset 1, yet every denominator
is 3: avg_fee = 5, avg_sent = 200/3, avg_received = 500/3. -/
theorem c1_witness :
    specScenario.txs ≠ [] ∧
    get_additional_stats specScenario =
      .ok { avg_fee := 5, avg_sent := 200 / 3, avg_received := 500 / 3 } := by
  refine ⟨by decide, ?_⟩
  rw [c1_stats_use_total_denominator specScenario (by decide)]
  norm_num [specScenario, specSum, List.filterMap_cons, List.filterMap_nil,
    List.map_cons, List.map_nil, List.sum_cons, List.sum_nil, Stats.mk.injEq]

/-- C6: for every non-empty record sequence, total_received is the sum of
result over exactly the records with positive result and total_sent the sum
of minus result over exactly the records with negative result; dropping the
records whose result is zero from the sequence changes neither total, so a
zero-result record contributes to neither. -/
theorem c6_overview_totals (s : Snapshot) (now : Int) (h : s.txs ≠ []) :
    ∃ ov, get_wallet_overview s now = .ok ov ∧
      ov.total_received = specSum s.txs (fun tx => decide (0 < tx.result)) (·.result) ∧
      ov.total_sent = specSum s.txs (fun tx => decide (tx.result < 0)) (fun tx => -tx.result) ∧
      ov.total_received =
        specSum (s.txs.filter (fun tx => !decide (tx.result = 0)))
          (fun tx => decide (0 < tx.result)) (·.result) ∧
      ov.total_sent =
        specSum (s.txs.filter (fun tx => !decide (tx.result = 0)))
          (fun tx => decide (tx.result < 0)) (fun tx => -tx.result) := by
  unfold get_wallet_overview
  rw [if_neg h]
  refine ⟨_, rfl, ?_, ?_, ?_, ?_⟩ <;>
    simp only [specSum_eq_filter_map_sum, List.filter_filter]
  · have hfil : s.txs.filter (fun a => decide (0 < a.result) && !decide (a.result = 0)) =
        s.txs.filter (fun tx => decide (tx.result > 0)) :=
      List.filter_congr (by intro tx _; by_cases h0 : tx.result = 0 <;> simp [h0])
    rw [hfil]
  · have hfil : s.txs.filter (fun a => decide (a.result < 0) && !decide (a.result = 0)) =
        s.txs.filter (fun tx => decide (tx.result < 0)) :=
      List.filter_congr (by intro tx _; by_cases h0 : tx.result = 0 <;> simp [h0])
    rw [hfil]

/-- Witness for C6 on the three-record scenario: the totals exist and equal
the strict-sign sums, which evaluate to 500 received and 200 sent; the
zero-result record r3 contributes to neither. -/
theorem c6_witness :
    specScenario.txs ≠ [] ∧
    (∃ ov, get_wallet_overview specScenario 1700090000 = .ok ov ∧
      ov.total_received = specSum specScenario.txs (fun tx => decide (0 < tx.result)) (·.result) ∧
      ov.total_sent = specSum specScenario.txs (fun tx => decide (tx.result < 0)) (fun tx => -tx.result) ∧
      ov.total_received =
        specSum (specScenario.txs.filter (fun tx => !decide (tx.result = 0)))
          (fun tx => decide (0 < tx.result)) (·.result) ∧
      ov.total_sent =
        specSum (specScenario.txs.filter (fun tx => !decide (tx.result = 0)))
          (fun tx => decide (tx.result < 0)) (fun tx => -tx.result)) ∧
    specSum specScenario.txs (fun tx => decide (0 < tx.result)) (·.result) = 500 ∧
    specSum specScenario.txs (fun tx => decide (tx.result < 0)) (fun tx => -tx.result) = 200 :=
  ⟨by decide, c6_overview_totals specScenario 1700090000 (by decide), by decide, by decide⟩

/-- C7: for every non-empty record sequence, last_24h_received and
last_24h_sent apply the same strict-sign split restricted to the records
whose timestamp is at least the clock instant minus 24 hours (86400
seconds), the boundary being inclusive since the comparison is a
non-strict one. -/
theorem c7_last24h_boundary (s : Snapshot) (now : Int) (h : s.txs ≠ []) :
    ∃ ov, get_wallet_overview s now = .ok ov ∧
      ov.last_24h_received =
        specSum s.txs (fun tx => decide (0 < tx.result ∧ now - 86400 ≤ tx.time)) (·.result) ∧
      ov.last_24h_sent =
        specSum s.txs (fun tx => decide (tx.result < 0 ∧ now - 86400 ≤ tx.time)) (fun tx => -tx.result) := by
  unfold get_wallet_overview
  rw [if_neg h]
  exact ⟨_, rfl, (specSum_eq_filter_map_sum ..).symm ▸ rfl, (specSum_eq_filter_map_sum ..).symm ▸ rfl⟩

/-- Witness for C7 on the boundary scenario with clock reading 1700086400:
the record at exactly 1700000000 (the 24-hour cut) is included and the
record one second older is excluded, so last_24h_received evaluates to 7,
not 16 and not 0. -/
theorem c7_witness :
    boundaryScenario.txs ≠ [] ∧
    (∃ ov, get_wallet_overview boundaryScenario 1700086400 = .ok ov ∧
      ov.last_24h_received =
        specSum boundaryScenario.txs
          (fun tx => decide (0 < tx.result ∧ 1700086400 - 86400 ≤ tx.time)) (·.result) ∧
      ov.last_24h_sent =
        specSum boundaryScenario.txs
          (fun tx => decide (tx.result < 0 ∧ 1700086400 - 86400 ≤ tx.time)) (fun tx => -tx.result)) ∧
    specSum boundaryScenario.txs
      (fun tx => decide (0 < tx.result ∧ 1700086400 - 86400 ≤ tx.time)) (·.result) = 7 :=
  ⟨by decide, c7_last24h_boundary boundaryScenario 1700086400 (by decide), by decide⟩

/-- Counterexample to C5: get_wallet_overview calls pd.Timestamp.now()
internally (src/app.py line 131) instead of taking nowInstant as an input,
so on the same snapshot two runs under different ambient clock readings
return different overviews (here the last_24h fields flip from 5 to 0).
The clock reading appears below as the second argument only because the
embedding makes the internal clock read explicit. -/
theorem c5_counterexample :
    get_wallet_overview clockSnapshot 1000000 ≠ get_wallet_overview clockSnapshot 10000000 := by
  intro hEq
  have h24 := congrArg (Except.map Overview.last_24h_received) hEq
  simp [get_wallet_overview, clockSnapshot, specSum, Except.map] at h24

/-- C5 amended: the supplementary stats and the graph are functions of the
snapshot and filter parameters alone, and the overview is a function of the
snapshot and the ambient clock instant read during the run; only the
last_24h fields depend on that clock reading, every other overview field is
independent of it.  (As stated, C5 fails: nowInstant is not an explicit
input, the code reads the global clock inside get_wallet_overview.) -/
theorem c5_amended_clock_dependence (s : Snapshot) (n1 n2 : Int) :
    (get_wallet_overview s n1).map clockFreeView = (get_wallet_overview s n2).map clockFreeView := by
  by_cases hs : s.txs = [] <;> simp [get_wallet_overview, hs, clockFreeView, Except.map]

/-- C2: among records that pass the time window, the filter string Sent
excludes exactly the records with positive result (a record survives iff
its result is at most 0), Received excludes exactly those with negative
result (survives iff result is at least 0), a record with result 0
survives both, and the unset filter as well as any All value exclude no
record on the basis of result. -/
theorem c2_filter_policy (tr : Option (Int × Int)) (tx : Tx) (h : inTimeRange tr tx = true) :
    (survives (some "Sent") tr tx = true ↔ tx.result ≤ 0) ∧
    (survives (some "Received") tr tx = true ↔ 0 ≤ tx.result) ∧
    (tx.result = 0 →
      survives (some "Sent") tr tx = true ∧ survives (some "Received") tr tx = true) ∧
    survives none tr tx = true ∧
    survives (some "All") tr tx = true := by
  cases tr with
  | none =>
    refine ⟨?_, ?_, ?_, ?_, ?_⟩ <;> simp [survives] <;> omega
  | some r =>
    simp only [inTimeRange, Bool.and_eq_true, decide_eq_true_eq] at h
    refine ⟨?_, ?_, ?_, ?_, ?_⟩ <;>
      simp [survives, not_lt.mpr h.1, not_lt.mpr h.2] <;> omega

/-- Witness for C2 at the range (0, 10) and a record with time 5 and
result -3: inside the window, it survives the Sent filter, is excluded by
the Received filter, and survives the unset and All filters. -/
theorem c2_witness :
    inTimeRange (some (0, 10)) { hash := "w", time := 5, result := -3, fee := none, out := [] } = true ∧
    (survives (some "Sent") (some (0, 10))
        { hash := "w", time := 5, result := -3, fee := none, out := [] } = true ↔
      ({ hash := "w", time := 5, result := -3, fee := none, out := [] } : Tx).result ≤ 0) :=
  ⟨by decide,
   (c2_filter_policy (some (0, 10)) { hash := "w", time := 5, result := -3, fee := none, out := [] }
      (by decide)).1⟩

theorem mem_txEdges (ft : Option String) (ma : Option Int) (tr : Option (Int × Int))
    (tx : Tx) (p : String × String) :
    p ∈ txEdges ft ma tr tx ↔
      survives ft tr tx = true ∧ p.1 = tx.hash ∧
        ∃ o ∈ tx.out, o.addr = some p.2 ∧ outPasses ma o = true := by
  obtain ⟨p1, p2⟩ := p
  unfold txEdges
  by_cases hs : survives ft tr tx
  · simp only [hs, if_true, List.mem_filterMap, true_and]
    constructor
    · rintro ⟨o, ho, hf⟩
      cases hao : o.addr with
      | none => rw [hao] at hf; simp at hf
      | some a0 =>
        rw [hao] at hf
        by_cases hp : outPasses ma o = true
        · simp only [hp, if_true] at hf
          simp only [Option.some.injEq, Prod.mk.injEq] at hf
          exact ⟨hf.1.symm, o, ho, by rw [hao, hf.2], hp⟩
        · simp [hp] at hf
    · rintro ⟨hh, o, ho, hao, hp⟩
      refine ⟨o, ho, ?_⟩
      rw [hao]
      simp only [hp, if_true, Option.some.injEq, Prod.mk.injEq]
      exact ⟨hh.symm, trivial⟩
  · simp only [Bool.not_eq_true] at hs
    simp [hs]

theorem outPasses_iff (ma : Option Int) (o : TxOut) :
    outPasses ma o = true ↔ (ma = none ∨ ∃ m, ma = some m ∧ m ≤ o.value) := by
  cases ma <;> simp [outPasses]

theorem survives_eq_false_of_outside_range (ft : Option String) (tr : Option (Int × Int))
    (tx : Tx) (h : inTimeRange tr tx = false) : survives ft tr tx = false := by
  cases tr with
  | none => simp [inTimeRange] at h
  | some r =>
    simp only [inTimeRange, Bool.and_eq_false_iff, decide_eq_false_iff_not, not_le] at h
    have hx : (!(decide (tx.time < r.1) || decide (tx.time > r.2))) = false := by
      rcases h with h | h <;> simp [h]
    simp [survives, hx]

/-- C3: an edge from hash to address is in the built edge list iff some
record with that hash survives the time-window and filter-string checks and
has an output carrying exactly that address whose value passes the
minimum-amount test (min_amount unset, or value at least min_amount);
moreover a record outside a provided closed time range contributes zero
edges, and every contributed edge names the record hash and the address of
an output that has one — an addressless output never yields an edge (and
the embedded builder is total: nothing is raised). -/
theorem c3_edge_characterization (s : Snapshot) (ft : Option String) (ma : Option Int)
    (tr : Option (Int × Int)) (hsh a : String) :
    ((hsh, a) ∈ edgeList s ft ma tr ↔
      ∃ tx ∈ s.txs, tx.hash = hsh ∧ survives ft tr tx = true ∧
        ∃ o ∈ tx.out, o.addr = some a ∧
          (ma = none ∨ ∃ m, ma = some m ∧ m ≤ o.value)) ∧
    (∀ tx, inTimeRange tr tx = false → txEdges ft ma tr tx = []) ∧
    (∀ tx p, p ∈ txEdges ft ma tr tx →
      p.1 = tx.hash ∧ ∃ o ∈ tx.out, o.addr = some p.2) := by
  refine ⟨?_, ?_, ?_⟩
  · simp only [edgeList, List.mem_flatMap, mem_txEdges, outPasses_iff]
    constructor
    · rintro ⟨tx, htx, hs, hh, o, ho, hao, hpass⟩
      exact ⟨tx, htx, hh.symm, hs, o, ho, hao, hpass⟩
    · rintro ⟨tx, htx, hh, hs, o, ho, hao, hpass⟩
      exact ⟨tx, htx, hs, hh.symm, o, ho, hao, hpass⟩
  · intro tx htx
    simp [txEdges, survives_eq_false_of_outside_range ft tr tx htx]
  · intro tx p hp
    obtain ⟨_, hh, o, ho, hao, _⟩ := (mem_txEdges ft ma tr tx p).mp hp
    exact ⟨hh, o, ho, hao⟩

/-- Witness for C3 on the three-record scenario with a minimum amount of
100 and the range covering the first two records: the edge from r2 to B is
present, the record lateTx lies outside the window (0, 10) and contributes
no edges, and every txEdges pair of r3 would need an addressed output, of
which r3 has none. -/
theorem c3_witness :
    ((("r2", "B") ∈ edgeList specScenario none (some 100) none) ↔
      ∃ tx ∈ specScenario.txs, tx.hash = "r2" ∧ survives none none tx = true ∧
        ∃ o ∈ tx.out, o.addr = some "B" ∧
          ((some 100 : Option Int) = none ∨ ∃ m, (some 100 : Option Int) = some m ∧ m ≤ o.value)) ∧
    inTimeRange (some (0, 10)) lateTx = false ∧
    txEdges none (some 100) (some (0, 10)) lateTx = [] :=
  ⟨(c3_edge_characterization specScenario none (some 100) none "r2" "B").1,
   by decide,
   (c3_edge_characterization specScenario none (some 100) (some (0, 10)) "r2" "B").2.1
     lateTx (by decide)⟩

theorem survives_of_ne_sentinels (f : String) (hf1 : f ≠ "Sent") (hf2 : f ≠ "Received")
    (tr : Option (Int × Int)) (tx : Tx) :
    survives (some f) tr tx = survives none tr tx := by
  simp [survives, hf1, hf2]

theorem edgeList_congr_filter (s : Snapshot) (f1 f2 : Option String) (ma : Option Int)
    (tr : Option (Int × Int)) (hsur : ∀ tx, survives f1 tr tx = survives f2 tr tx) :
    edgeList s f1 ma tr = edgeList s f2 ma tr := by
  unfold edgeList
  congr 1
  funext tx
  unfold txEdges
  rw [hsur tx]

/-- C4: the UI only offers the Korean filter literals, none of which equals
the code's sentinels Sent or Received, so for every snapshot, minimum
amount and time range the UI-selectable filters apply no result-based
exclusion: the edge list, and with it the whole built graph, is the one
obtained with the filter unset, which is also the one obtained with the
literal All. -/
theorem c4_ui_filter_inert (s : Snapshot) (ma : Option Int) (tr : Option (Int × Int))
    (f : String) (hf : f ∈ ["전체", "보낸 트랜잭션", "받은 트랜잭션"]) :
    edgeList s (some f) ma tr = edgeList s none ma tr ∧
    edgeList s (some f) ma tr = edgeList s (some "All") ma tr ∧
    ∀ a, visualize_address_connections a s (some f) ma tr =
      visualize_address_connections a s none ma tr := by
  have hall : edgeList s (some "All") ma tr = edgeList s none ma tr :=
    edgeList_congr_filter s (some "All") none ma tr
      (survives_of_ne_sentinels "All" (by decide) (by decide) tr)
  have hnone : edgeList s (some f) ma tr = edgeList s none ma tr := by
    simp only [List.mem_cons, List.not_mem_nil, or_false] at hf
    rcases hf with hf | hf | hf <;>
      exact edgeList_congr_filter s (some f) none ma tr
        (by rw [hf]; exact survives_of_ne_sentinels _ (by decide) (by decide) tr)
  refine ⟨hnone, by rw [hnone, hall], ?_⟩
  intro a
  unfold visualize_address_connections
  rw [hnone]

/-- Witness for C4: on the three-record scenario the graph built with the
first UI literal equals the graph built with the filter unset. -/
theorem c4_witness :
    ("전체" ∈ ["전체", "보낸 트랜잭션", "받은 트랜잭션"]) ∧
    edgeList specScenario (some "전체") none none = edgeList specScenario none none none :=
  ⟨by decide, (c4_ui_filter_inert specScenario none none "전체" (by decide)).1⟩

/-- C9: when the network read fails or the HTTP status is non-success (both
surface as the caught RequestException), the run renders exactly one error
message that carries the underlying cause, the run returns normally (the
process is not aborted: the function is total and yields a value), and no
overview, stats, graph or details step occurs in that run. -/
theorem c9_fetch_failure_short_circuits (address cause : String) (now : Int)
    (ft : Option String) (ma : Option Int) (tr : Option (Int × Int)) :
    runInvestigation address (.failure cause) now ft ma tr =
      [.errorMessage ("데이터를 가져오는 중 오류 발생: " ++ cause)] ∧
    ∀ step ∈ runInvestigation address (.failure cause) now ft ma tr,
      (∀ ov, step ≠ .walletOverview ov) ∧ (∀ st, step ≠ .statsPanel st) ∧
      (∀ g, step ≠ .transactionGraph g) ∧ (∀ txs, step ≠ .transactionDetails txs) := by
  refine ⟨rfl, ?_⟩
  intro step hstep
  simp only [runInvestigation, get_transaction_history, List.mem_singleton] at hstep
  subst hstep
  exact ⟨fun ov => by simp, fun st => by simp, fun g => by simp, fun txs => by simp⟩

/-- Witness for C9 at a concrete failing fetch: the single rendered step is
the error message carrying the cause, and it is not an overview step. -/
theorem c9_witness :
    runInvestigation "addr" (.failure "boom") 0 none none none =
      [.errorMessage ("데이터를 가져오는 중 오류 발생: " ++ "boom")] ∧
    ∀ ov, RenderStep.errorMessage ("데이터를 가져오는 중 오류 발생: " ++ "boom") ≠
      .walletOverview ov :=
  ⟨(c9_fetch_failure_short_circuits "addr" "boom" 0 none none none).1,
   fun ov =>
     ((c9_fetch_failure_short_circuits "addr" "boom" 0 none none none).2
       (.errorMessage ("데이터를 가져오는 중 오류 발생: " ++ "boom"))
       (by simp [runInvestigation, get_transaction_history])).1 ov⟩

theorem mem_insertNode (ns : List String) (n m : String) :
    m ∈ insertNode ns n ↔ m ∈ ns ∨ m = n := by
  unfold insertNode
  by_cases h : n ∈ ns
  · rw [if_pos h]
    constructor
    · exact Or.inl
    · rintro (hm | rfl)
      · exact hm
      · exact h
  · rw [if_neg h]
    simp [List.mem_append]

theorem insertNode_nodup (ns : List String) (n : String) (h : ns.Nodup) :
    (insertNode ns n).Nodup := by
  unfold insertNode
  by_cases hn : n ∈ ns
  · rw [if_pos hn]; exact h
  · rw [if_neg hn]
    simp [List.nodup_append, h, hn]

theorem successors_aux_mem (E : List (String × String)) (n : String) :
    ∀ (acc : List String) (m : String),
      m ∈ E.foldl (fun ss e => if e.1 = n then insertNode ss e.2 else ss) acc ↔
        m ∈ acc ∨ (n, m) ∈ E := by
  induction E with
  | nil => intro acc m; simp
  | cons e es ih =>
    intro acc m
    simp only [List.foldl_cons, List.mem_cons]
    by_cases he : e.1 = n
    · rw [if_pos he, ih, mem_insertNode]
      have hpair : ((n, m) = e) ↔ m = e.2 := by
        obtain ⟨e1, e2⟩ := e
        simp only [Prod.mk.injEq]
        simp only at he
        subst he
        tauto
      rw [hpair]
      tauto
    · rw [if_neg he, ih]
      have hpair : ¬ ((n, m) = e) := fun hc => he (by rw [← hc])
      tauto

theorem mem_successors (E : List (String × String)) (n m : String) :
    m ∈ successors E n ↔ (n, m) ∈ E := by
  have h := successors_aux_mem E n [] m
  simpa [successors] using h

theorem successors_aux_nodup (E : List (String × String)) (n : String) :
    ∀ acc : List String, acc.Nodup →
      (E.foldl (fun ss e => if e.1 = n then insertNode ss e.2 else ss) acc).Nodup := by
  induction E with
  | nil => intro acc h; simpa
  | cons e es ih =>
    intro acc h
    simp only [List.foldl_cons]
    by_cases he : e.1 = n
    · rw [if_pos he]; exact ih _ (insertNode_nodup _ _ h)
    · rw [if_neg he]; exact ih _ h

theorem successors_nodup (E : List (String × String)) (n : String) :
    (successors E n).Nodup :=
  successors_aux_nodup E n [] List.nodup_nil

theorem successors_length_eq_card (E : List (String × String)) (n : String) :
    (successors E n).length =
      ((E.filter (fun e => decide (e.1 = n))).map (·.2)).toFinset.card := by
  rw [← List.toFinset_card_of_nodup (successors_nodup E n)]
  congr 1
  ext m
  simp only [List.mem_toFinset, mem_successors, List.mem_map, List.mem_filter,
    decide_eq_true_eq]
  constructor
  · intro h
    exact ⟨(n, m), ⟨h, rfl⟩, rfl⟩
  · rintro ⟨e, ⟨he, h1⟩, h2⟩
    obtain ⟨e1, e2⟩ := e
    simp only at h1 h2
    subst h1; subst h2
    exact he

/-- Counterexample to C10: the code displays len of the adjacency view of a
DiGraph, which counts distinct successors only.  In the graph of
oneEdgeSnapshot the address node A has exactly one adjacent node (the hash
h1, over the in-edge) yet its displayed degree, marker color and size use
the successor count 0, so the displayed degree is not the count of
distinct adjacent nodes. -/
theorem c10_counterexample :
    "A" ∈ graphNodes (edgeList oneEdgeSnapshot none none none) ∧
    (adjacentNodes (edgeList oneEdgeSnapshot none none none) "A").length = 1 ∧
    (nodeAttr (edgeList oneEdgeSnapshot none none none) "A").color ≠
      ((adjacentNodes (edgeList oneEdgeSnapshot none none none) "A").length : Int) := by
  decide

/-- C10 amended: for every node of the built graph the node trace holds its
attribute record, whose displayed degree d is the count of distinct
successor nodes (targets of out-edges from the node) — not of all adjacent
nodes — and whose label is the text Address, node, Transactions, d, whose
marker size is 20 + d * 5 and whose marker color is d, exactly as stated
otherwise. -/
theorem c10_amended_successor_degree (a : String) (s : Snapshot) (ft : Option String)
    (ma : Option Int) (tr : Option (Int × Int)) (n : String)
    (hn : n ∈ graphNodes (edgeList s ft ma tr)) :
    nodeAttr (edgeList s ft ma tr) n ∈ (visualize_address_connections a s ft ma tr).nodeTrace ∧
    ∃ d : ℕ,
      d = (((edgeList s ft ma tr).filter (fun e => decide (e.1 = n))).map (·.2)).toFinset.card ∧
      (nodeAttr (edgeList s ft ma tr) n).label =
        "Address: " ++ n ++ ", Transactions: " ++ toString ((d : Int)) ∧
      (nodeAttr (edgeList s ft ma tr) n).size = 20 + (d : Int) * 5 ∧
      (nodeAttr (edgeList s ft ma tr) n).color = (d : Int) :=
  ⟨List.mem_map_of_mem _ hn,
   (successors (edgeList s ft ma tr) n).length,
   successors_length_eq_card _ n, rfl, rfl, rfl⟩

/-- Witness for C10 amended, on oneEdgeSnapshot at the hash node h1: its
attribute record is in the trace with displayed degree 1 (one successor),
label text ending in 1, size 25 and color 1. -/
theorem c10_witness :
    ("h1" ∈ graphNodes (edgeList oneEdgeSnapshot none none none)) ∧
    (nodeAttr (edgeList oneEdgeSnapshot none none none) "h1" ∈
      (visualize_address_connections "x" oneEdgeSnapshot none none none).nodeTrace ∧
    ∃ d : ℕ,
      d = (((edgeList oneEdgeSnapshot none none none).filter
            (fun e => decide (e.1 = "h1"))).map (·.2)).toFinset.card ∧
      (nodeAttr (edgeList oneEdgeSnapshot none none none) "h1").label =
        "Address: " ++ "h1" ++ ", Transactions: " ++ toString ((d : Int)) ∧
      (nodeAttr (edgeList oneEdgeSnapshot none none none) "h1").size = 20 + (d : Int) * 5 ∧
      (nodeAttr (edgeList oneEdgeSnapshot none none none) "h1").color = (d : Int)) :=
  ⟨by decide,
   c10_amended_successor_degree "x" oneEdgeSnapshot none none none "h1" (by decide)⟩

end BlockDark
